import Mathlib

/-!
Verification model of `impeller::RuntimeEffectContents::Render`
(src/impeller/entity/contents/runtime_effect_contents.cc).

The render call is embedded as a pure function from the caller-supplied
data (`RuntimeStage`, uniform data blob, texture inputs, entity stencil
depth) and an environment capturing the outcomes of the external
collaborators (shader library lookups, backend registration, geometry
resolution, pipeline construction, clip-restore draw) to a trace of
observable actions plus the boolean result and the final dirty flag.
-/

namespace RuntimeEffect

/-- Uniform kinds, mirroring the `RuntimeUniformType` cases switched over in
`Render` (kSampledImage, kFloat, and the unsupported kinds). -/
inductive UniformType where
  | kSampledImage
  | kFloat
  | kBoolean
  | kSignedByte
  | kUnsignedByte
  | kSignedShort
  | kUnsignedShort
  | kSignedInt
  | kUnsignedInt
  | kSignedInt64
  | kUnsignedInt64
  | kHalfFloat
  | kDouble
deriving DecidableEq, Repr

/-- A uniform kind handled by the binding loop without aborting:
`kSampledImage` or `kFloat`; every other case hits the validation-log
branch. -/
def UniformType.supported : UniformType → Bool
  | .kSampledImage => true
  | .kFloat => true
  | _ => false

/-- One entry of the runtime stage's uniform layout:
`{name, type, bit_width, location}` plus the byte size `GetSize()`. -/
structure RuntimeUniform where
  name : String
  type : UniformType
  bit_width : Nat
  location : Nat
  size : Nat
deriving DecidableEq, Repr

/-- The caller-owned `RuntimeStage`: entry point, dirty flag, ordered
uniform layout. -/
structure RuntimeStage where
  entrypoint : String
  dirty : Bool
  uniforms : List RuntimeUniform
deriving DecidableEq, Repr

/-- `TextureInput`: opaque texture handle plus sampler descriptor. -/
structure TextureInput where
  texture : Nat
  sampler_descriptor : Nat
deriving DecidableEq, Repr

/-- Stencil compare functions (subset of `impeller::CompareFunction`
relevant to the overdraw override). -/
inductive CompareFunction where
  | kNever
  | kAlways
  | kLess
  | kEqual
  | kLessEqual
  | kGreater
  | kNotEqual
  | kGreaterEqual
deriving DecidableEq, Repr

/-- Stencil operations (subset of `impeller::StencilOperation` relevant to
the overdraw override). -/
inductive StencilOperation where
  | kKeep
  | kZero
  | kSetToReferenceValue
  | kIncrementClamp
  | kIncrementWrap
  | kDecrementClamp
  | kDecrementWrap
  | kInvert
deriving DecidableEq, Repr

/-- The fields of `ContentContextOptions` that `Render` touches:
stencil compare/operation and primitive type. -/
structure ContentContextOptions where
  stencil_compare : CompareFunction
  stencil_operation : StencilOperation
  primitive_type : Nat
deriving DecidableEq, Repr

/-- Outcome of `GetGeometry()->GetPositionBuffer(...)`: the fields the
render call branches on. -/
structure GeometryResult where
  prevent_overdraw : Bool
  primitive_type : Nat
deriving DecidableEq, Repr

/-- Outcomes of the external collaborators consumed by one `Render` call:
shader-library lookups, backend registration, geometry resolution,
`OptionsFromPassAndEntity`, vertex-descriptor setup, pipeline construction,
the clip-restore draw, the backend's minimum uniform alignment
(`DefaultUniformAlignment()`), and the transient buffer's byte position when
the fragment-uniform loop starts. -/
structure RenderEnv where
  functionFound : Bool
  registerResult : Bool
  refetchFound : Bool
  geometry : GeometryResult
  passEntityOptions : ContentContextOptions
  vertexLayoutOk : Bool
  pipelineOk : Bool
  clipRestoreResult : Bool
  minUniformAlignment : Nat
  transientsPos : Nat
deriving DecidableEq, Repr

/-- One observable effect of the fragment-uniform binding loop:
a texture+sampler binding, a uniform-buffer binding, or the validation log
on an unsupported uniform kind. -/
inductive BindEvent where
  | boundTexture (name : String) (input : Option TextureInput)
      (texture_index : Nat) (sampler_index : Nat)
  | boundBuffer (name : String) (slot : Nat) (data : List Nat)
      (offset : Nat) (alignment : Nat)
  | logUnsupported (name : String)
deriving DecidableEq, Repr

/-- State threaded through the binding loop: the transient buffer's byte
position and the two slot counters `buffer_index` and `sampler_index`. -/
structure BindState where
  pos : Nat
  buffer_index : Nat
  sampler_index : Nat
deriving DecidableEq, Repr

/-- Round `pos` up to the next multiple of `align` (identity when
`align = 0`). -/
def alignUp (pos align : Nat) : Nat :=
  if align = 0 then pos else (pos + align - 1) / align * align

/-- Modelled from the spec: `HostBuffer::Emplace(bytes, size, alignment)`
of the render pass's transients buffer is not under src/; per the spec it
allocates the slice into the per-frame transient buffer at `alignment`,
i.e. at the next offset aligned to `alignment`. Returns the allocated
offset and the advanced buffer position. -/
def emplace (s : BindState) (len align : Nat) : Nat × BindState :=
  let off := alignUp s.pos align
  (off, { s with pos := off + len })

/-- The fragment-uniform binding loop of `Render` (the `for` over
`runtime_stage_->GetUniforms()`): returns the list of binding events, the
final state, and whether the loop aborted on an unsupported uniform kind
(the early `return true`). -/
def bindLoop (minAlign : Nat) (uniform_data : List Nat)
    (texture_inputs : List TextureInput) :
    List RuntimeUniform → BindState → List BindEvent × BindState × Bool
  | [], s => ([], s, false)
  | u :: rest, s =>
    match u.type with
    | .kSampledImage =>
      let e := BindEvent.boundTexture u.name
        (texture_inputs.get? s.sampler_index) s.sampler_index s.sampler_index
      let s' : BindState :=
        { s with sampler_index := s.sampler_index + 1,
                 buffer_index := s.buffer_index + 1 }
      let r := bindLoop minAlign uniform_data texture_inputs rest s'
      (e :: r.1, r.2)
    | .kFloat =>
      let alignment := max (u.bit_width / 8) minAlign
      let data := (uniform_data.drop (u.location * 4)).take u.size
      let er := emplace s u.size alignment
      let e := BindEvent.boundBuffer u.name s.buffer_index data er.1 alignment
      let s' : BindState := { er.2 with buffer_index := s.buffer_index + 1 }
      let r := bindLoop minAlign uniform_data texture_inputs rest s'
      (e :: r.1, r.2)
    | _ => ([BindEvent.logUnsupported u.name], s, true)

/-- One observable action of a `Render` call, in program order. -/
inductive RenderAction where
  | removePipelinesWithEntryPoint (entrypoint : String)
  | unregisterFunction (entrypoint : String)
  | registerFunction (entrypoint : String)
  | logValidation (msg : String)
  | setClean
  | getPipeline (options : ContentContextOptions)
  | emplaceVertUniform
  | bind (e : BindEvent)
  | addCommand (stencil_reference : Nat) (options : ContentContextOptions)
  | clipRestoreRender
deriving DecidableEq, Repr

/-- `true` exactly on `getPipeline` actions. -/
def RenderAction.isGetPipeline : RenderAction → Bool
  | .getPipeline _ => true
  | _ => false

/-- `true` exactly on `addCommand` actions. -/
def RenderAction.isAddCommand : RenderAction → Bool
  | .addCommand _ _ => true
  | _ => false

/-- `true` exactly on `clipRestoreRender` actions. -/
def RenderAction.isClipRestore : RenderAction → Bool
  | .clipRestoreRender => true
  | _ => false

/-- `true` exactly on `setClean` actions. -/
def RenderAction.isSetClean : RenderAction → Bool
  | .setClean => true
  | _ => false

/-- Project the binding event out of a `bind` action. -/
def RenderAction.bindEvent : RenderAction → Option BindEvent
  | .bind e => some e
  | _ => none

/-- Result of a `Render` call: the trace of observable actions, the boolean
return value, and the stage's dirty flag after the call. -/
structure RenderResult where
  trace : List RenderAction
  ok : Bool
  dirty : Bool
deriving DecidableEq, Repr

/-- The `ContentContextOptions` applied to the pipeline descriptor:
`OptionsFromPassAndEntity(pass, entity)` with the stencil override when
`prevent_overdraw` is set, then the geometry's primitive type. -/
def appliedOptions (env : RenderEnv) : ContentContextOptions :=
  let options :=
    if env.geometry.prevent_overdraw then
      { env.passEntityOptions with
          stencil_compare := CompareFunction.kEqual,
          stencil_operation := StencilOperation.kIncrementClamp }
    else env.passEntityOptions
  { options with primitive_type := env.geometry.primitive_type }

/-- Diagnostic on backend registration failure. -/
def buildFailMsg (entrypoint : String) : String :=
  "Failed to build runtime effect (entry point: " ++ entrypoint ++ ")"

/-- Diagnostic when the function is missing right after a successful
registration. -/
def fetchFailMsg (entrypoint : String) : String :=
  "Failed to fetch runtime effect function immediately after registering it (entry point: "
    ++ entrypoint ++ ")"

/-- Diagnostic when applying the vertex stage inputs fails. -/
def vertexLayoutMsg : String :=
  "Failed to set stage inputs for runtime effect pipeline."

/-- Diagnostic on pipeline acquisition failure. -/
def pipelineFailMsg : String :=
  "Failed to get or create runtime effect pipeline."

/-- The (possibly empty) vertex-layout warning emitted while building the
pipeline descriptor: `SetStageInputs` failure is logged and nothing else. -/
def vertActs (env : RenderEnv) : List RenderAction :=
  if env.vertexLayoutOk then []
  else [RenderAction.logValidation vertexLayoutMsg]

/-- The portion of `Render` after the shader function has been resolved:
geometry, pipeline descriptor and lookup, command assembly, the
fragment-uniform binding loop, command submission, and the optional
clip-restore draw. `dirtyOut` is the stage's dirty flag at this point. -/
def renderAfterShader (env : RenderEnv) (stage : RuntimeStage)
    (uniform_data : List Nat) (texture_inputs : List TextureInput)
    (stencil_depth : Nat) (dirtyOut : Bool) : RenderResult :=
  let options := appliedOptions env
  let acts1 := vertActs env ++ [RenderAction.getPipeline options]
  if !env.pipelineOk then
    { trace := acts1 ++ [RenderAction.logValidation pipelineFailMsg],
      ok := false, dirty := dirtyOut }
  else
    let acts2 := acts1 ++ [RenderAction.emplaceVertUniform]
    let br := bindLoop env.minUniformAlignment uniform_data texture_inputs
      stage.uniforms ⟨env.transientsPos, 0, 0⟩
    let acts3 := acts2 ++ br.1.map RenderAction.bind
    if br.2.2 then
      { trace := acts3, ok := true, dirty := dirtyOut }
    else
      let acts4 := acts3 ++ [RenderAction.addCommand stencil_depth options]
      if env.geometry.prevent_overdraw then
        { trace := acts4 ++ [RenderAction.clipRestoreRender],
          ok := env.clipRestoreResult, dirty := dirtyOut }
      else
        { trace := acts4, ok := true, dirty := dirtyOut }

/-- The full `Render` call. Shader phase: look the fragment function up; if
found and the stage is dirty, evict referencing pipelines, unregister the
function, and treat as a miss; on a miss, register with the backend, fail
on a negative result or a failed re-fetch, and clear the dirty flag on
success; then proceed to `renderAfterShader`. -/
def Render (env : RenderEnv) (stage : RuntimeStage)
    (uniform_data : List Nat) (texture_inputs : List TextureInput)
    (stencil_depth : Nat) : RenderResult :=
  let evicted := env.functionFound && stage.dirty
  let evictActs : List RenderAction :=
    if evicted then
      [RenderAction.removePipelinesWithEntryPoint stage.entrypoint,
       RenderAction.unregisterFunction stage.entrypoint]
    else []
  let haveFunction := env.functionFound && !stage.dirty
  if haveFunction then
    let r := renderAfterShader env stage uniform_data texture_inputs
      stencil_depth stage.dirty
    { r with trace := evictActs ++ r.trace }
  else
    let regActs := evictActs ++ [RenderAction.registerFunction stage.entrypoint]
    if !env.registerResult then
      { trace := regActs ++ [RenderAction.logValidation (buildFailMsg stage.entrypoint)],
        ok := false, dirty := stage.dirty }
    else if !env.refetchFound then
      { trace := regActs ++ [RenderAction.logValidation (fetchFailMsg stage.entrypoint)],
        ok := false, dirty := stage.dirty }
    else
      let r := renderAfterShader env stage uniform_data texture_inputs
        stencil_depth false
      { r with trace := regActs ++ [RenderAction.setClean] ++ r.trace }

/-- Number of sampled-image entries in a layout. -/
def countSampled (l : List RuntimeUniform) : Nat :=
  l.countP (fun u => decide (u.type = UniformType.kSampledImage))

/-- The shader-resolution phase of `Render` succeeds: either the function
is found in the library with a clean stage, or the backend registration
reports success and the re-fetch finds the function. -/
def shaderOk (env : RenderEnv) (stage : RuntimeStage) : Bool :=
  (env.functionFound && !stage.dirty) || (env.registerResult && env.refetchFound)

/-- An aligned `emplace` offset is a multiple of a positive alignment. -/
theorem alignUp_mod (p a : Nat) (ha : 0 < a) : alignUp p a % a = 0 := by
  unfold alignUp
  rw [if_neg (Nat.pos_iff_ne_zero.mp ha)]
  exact Nat.mul_mod_left _ _

/-- The binding loop aborts immediately at an unsupported head entry,
emitting only the validation log and leaving the state untouched. -/
theorem bindLoop_unsupported_cons (m : Nat) (blob : List Nat)
    (inputs : List TextureInput) (u : RuntimeUniform)
    (suf : List RuntimeUniform) (s : BindState)
    (hu : u.type.supported = false) :
    bindLoop m blob inputs (u :: suf) s =
      ([BindEvent.logUnsupported u.name], s, true) := by
  cases ht : u.type <;>
    simp [UniformType.supported, ht] at hu ⊢ <;>
    simp [bindLoop, ht]

/-- On a fully supported layout, the binding loop does not abort, emits one
event per entry, increments `buffer_index` once per entry, and increments
`sampler_index` once per sampled-image entry. -/
theorem bindLoop_supported (m : Nat) (blob : List Nat)
    (inputs : List TextureInput) (layout : List RuntimeUniform) :
    ∀ s : BindState, (∀ u ∈ layout, u.type.supported = true) →
      (bindLoop m blob inputs layout s).2.2 = false ∧
      (bindLoop m blob inputs layout s).1.length = layout.length ∧
      (bindLoop m blob inputs layout s).2.1.buffer_index
        = s.buffer_index + layout.length ∧
      (bindLoop m blob inputs layout s).2.1.sampler_index
        = s.sampler_index + countSampled layout := by
  induction layout with
  | nil => intro s _; simp [bindLoop, countSampled]
  | cons u rest ih =>
    intro s h
    have hu : u.type.supported = true := h u (List.mem_cons_self u rest)
    have hrest : ∀ v ∈ rest, v.type.supported = true :=
      fun v hv => h v (List.mem_cons_of_mem u hv)
    cases ht : u.type with
    | kSampledImage =>
      have hd := ih { s with sampler_index := s.sampler_index + 1,
                             buffer_index := s.buffer_index + 1 } hrest
      simp only [bindLoop, ht] at hd ⊢
      refine ⟨hd.1, by simp [hd.2.1], ?_, ?_⟩
      · rw [hd.2.2.1]; simp; omega
      · rw [hd.2.2.2]; simp [countSampled, List.countP_cons, ht]; omega
    | kFloat =>
      have hd := ih { (emplace s u.size (max (u.bit_width / 8) m)).2 with
                      buffer_index := s.buffer_index + 1 } hrest
      simp only [bindLoop, ht] at hd ⊢
      refine ⟨hd.1, by simp [hd.2.1], ?_, ?_⟩
      · rw [hd.2.2.1]; simp; omega
      · rw [hd.2.2.2]; simp [countSampled, List.countP_cons, ht, emplace]
    | kBoolean => rw [ht] at hu; exact absurd hu (by decide)
    | kSignedByte => rw [ht] at hu; exact absurd hu (by decide)
    | kUnsignedByte => rw [ht] at hu; exact absurd hu (by decide)
    | kSignedShort => rw [ht] at hu; exact absurd hu (by decide)
    | kUnsignedShort => rw [ht] at hu; exact absurd hu (by decide)
    | kSignedInt => rw [ht] at hu; exact absurd hu (by decide)
    | kUnsignedInt => rw [ht] at hu; exact absurd hu (by decide)
    | kSignedInt64 => rw [ht] at hu; exact absurd hu (by decide)
    | kUnsignedInt64 => rw [ht] at hu; exact absurd hu (by decide)
    | kHalfFloat => rw [ht] at hu; exact absurd hu (by decide)
    | kDouble => rw [ht] at hu; exact absurd hu (by decide)

/-- Splitting the binding loop across an append, provided the first part
does not abort. -/
theorem bindLoop_append (m : Nat) (blob : List Nat)
    (inputs : List TextureInput) (xs ys : List RuntimeUniform) :
    ∀ s : BindState, (bindLoop m blob inputs xs s).2.2 = false →
      bindLoop m blob inputs (xs ++ ys) s =
        ((bindLoop m blob inputs xs s).1
            ++ (bindLoop m blob inputs ys (bindLoop m blob inputs xs s).2.1).1,
          (bindLoop m blob inputs ys (bindLoop m blob inputs xs s).2.1).2) := by
  induction xs with
  | nil => intro s _; simp [bindLoop]
  | cons u rest ih =>
    intro s hab
    cases ht : u.type with
    | kSampledImage =>
      simp only [bindLoop, ht] at hab ⊢
      simp [ih _ hab]
    | kFloat =>
      simp only [bindLoop, ht] at hab ⊢
      simp [ih _ hab]
    | kBoolean => simp only [bindLoop, ht] at hab; exact absurd hab (by decide)
    | kSignedByte => simp only [bindLoop, ht] at hab; exact absurd hab (by decide)
    | kUnsignedByte => simp only [bindLoop, ht] at hab; exact absurd hab (by decide)
    | kSignedShort => simp only [bindLoop, ht] at hab; exact absurd hab (by decide)
    | kUnsignedShort => simp only [bindLoop, ht] at hab; exact absurd hab (by decide)
    | kSignedInt => simp only [bindLoop, ht] at hab; exact absurd hab (by decide)
    | kUnsignedInt => simp only [bindLoop, ht] at hab; exact absurd hab (by decide)
    | kSignedInt64 => simp only [bindLoop, ht] at hab; exact absurd hab (by decide)
    | kUnsignedInt64 => simp only [bindLoop, ht] at hab; exact absurd hab (by decide)
    | kHalfFloat => simp only [bindLoop, ht] at hab; exact absurd hab (by decide)
    | kDouble => simp only [bindLoop, ht] at hab; exact absurd hab (by decide)

/-- Indexed description of the events of a binding loop over a fully
supported layout: the `i`-th event binds the `i`-th layout entry, a
sampled image at texture and sampler slot `s.sampler_index + number of
preceding sampled-image entries`, a float at buffer slot
`s.buffer_index + i`. -/
theorem bindLoop_get (m : Nat) (blob : List Nat) (inputs : List TextureInput)
    (layout : List RuntimeUniform) :
    ∀ s : BindState, (∀ u ∈ layout, u.type.supported = true) →
    ∀ i u, layout.get? i = some u →
      (u.type = UniformType.kSampledImage →
        (bindLoop m blob inputs layout s).1.get? i =
          some (BindEvent.boundTexture u.name
            (inputs.get? (s.sampler_index + countSampled (layout.take i)))
            (s.sampler_index + countSampled (layout.take i))
            (s.sampler_index + countSampled (layout.take i)))) ∧
      (u.type = UniformType.kFloat →
        ∃ data off al, (bindLoop m blob inputs layout s).1.get? i =
          some (BindEvent.boundBuffer u.name (s.buffer_index + i)
            data off al)) := by
  induction layout with
  | nil => intro s _ i u hi; simp at hi
  | cons v rest ih =>
    intro s h i u hi
    have hv : v.type.supported = true := h v (List.mem_cons_self v rest)
    have hrest : ∀ w ∈ rest, w.type.supported = true :=
      fun w hw => h w (List.mem_cons_of_mem v hw)
    cases i with
    | zero =>
      simp only [List.get?_cons_zero, Option.some_inj] at hi
      subst hi
      constructor
      · intro ht
        simp [bindLoop, ht, countSampled]
      · intro ht
        refine ⟨(blob.drop (v.location * 4)).take v.size,
          alignUp s.pos (max (v.bit_width / 8) m),
          max (v.bit_width / 8) m, ?_⟩
        simp [bindLoop, ht, emplace]
    | succ j =>
      simp only [List.get?_cons_succ] at hi
      cases ht : v.type with
      | kSampledImage =>
        have hrec := ih { s with sampler_index := s.sampler_index + 1,
                                 buffer_index := s.buffer_index + 1 }
          hrest j u hi
        have hcnt : s.sampler_index + countSampled ((v :: rest).take (j + 1))
            = s.sampler_index + 1 + countSampled (rest.take j) := by
          simp [countSampled, List.take_succ_cons, List.countP_cons, ht]
          omega
        constructor
        · intro hu
          have h1 := hrec.1 hu
          simp only [bindLoop, ht, List.get?_cons_succ]
          rw [hcnt]
          exact h1
        · intro hu
          obtain ⟨data, off, al, h1⟩ := hrec.2 hu
          refine ⟨data, off, al, ?_⟩
          simp only [bindLoop, ht, List.get?_cons_succ]
          have hbi : s.buffer_index + (j + 1) = s.buffer_index + 1 + j := by
            omega
          rw [hbi]
          exact h1
      | kFloat =>
        have hrec := ih { (emplace s v.size (max (v.bit_width / 8) m)).2 with
                          buffer_index := s.buffer_index + 1 } hrest j u hi
        have hcnt : s.sampler_index + countSampled ((v :: rest).take (j + 1))
            = s.sampler_index + countSampled (rest.take j) := by
          simp [countSampled, List.take_succ_cons, List.countP_cons, ht]
        constructor
        · intro hu
          have h1 := hrec.1 hu
          simp only [bindLoop, ht, List.get?_cons_succ]
          rw [hcnt]
          simp only [emplace] at h1
          exact h1
        · intro hu
          obtain ⟨data, off, al, h1⟩ := hrec.2 hu
          refine ⟨data, off, al, ?_⟩
          simp only [bindLoop, ht, List.get?_cons_succ]
          have hbi : s.buffer_index + (j + 1) = s.buffer_index + 1 + j := by
            omega
          rw [hbi]
          exact h1
      | kBoolean => rw [ht] at hv; exact absurd hv (by decide)
      | kSignedByte => rw [ht] at hv; exact absurd hv (by decide)
      | kUnsignedByte => rw [ht] at hv; exact absurd hv (by decide)
      | kSignedShort => rw [ht] at hv; exact absurd hv (by decide)
      | kUnsignedShort => rw [ht] at hv; exact absurd hv (by decide)
      | kSignedInt => rw [ht] at hv; exact absurd hv (by decide)
      | kUnsignedInt => rw [ht] at hv; exact absurd hv (by decide)
      | kSignedInt64 => rw [ht] at hv; exact absurd hv (by decide)
      | kUnsignedInt64 => rw [ht] at hv; exact absurd hv (by decide)
      | kHalfFloat => rw [ht] at hv; exact absurd hv (by decide)
      | kDouble => rw [ht] at hv; exact absurd hv (by decide)

/-- Every buffer-binding event of the loop comes from a float layout entry:
its data is the blob slice at byte offset `location * 4` of length `size`,
its alignment is `max (bit_width / 8) minAlign`, and its offset is aligned
whenever the alignment is positive. -/
theorem bindLoop_buffer_events (m : Nat) (blob : List Nat)
    (inputs : List TextureInput) (layout : List RuntimeUniform) :
    ∀ s : BindState, ∀ e ∈ (bindLoop m blob inputs layout s).1,
    ∀ name slot data off al, e = BindEvent.boundBuffer name slot data off al →
      ∃ u, u ∈ layout ∧ u.type = UniformType.kFloat ∧ name = u.name ∧
        data = (blob.drop (u.location * 4)).take u.size ∧
        al = max (u.bit_width / 8) m ∧
        (0 < al → off % al = 0) := by
  induction layout with
  | nil => intro s e he; simp [bindLoop] at he
  | cons v rest ih =>
    intro s e he name slot data off al heq
    cases ht : v.type with
    | kSampledImage =>
      simp only [bindLoop, ht, List.mem_cons] at he
      rcases he with rfl | he
      · simp at heq
      · obtain ⟨u, hu, h2⟩ := ih _ e he name slot data off al heq
        exact ⟨u, List.mem_cons_of_mem v hu, h2⟩
    | kFloat =>
      simp only [bindLoop, ht, List.mem_cons] at he
      rcases he with rfl | he
      · simp only [BindEvent.boundBuffer.injEq] at heq
        obtain ⟨h1, _, h3, h4, h5⟩ := heq
        refine ⟨v, List.mem_cons_self v rest, ht, h1.symm, h3.symm, h5.symm, ?_⟩
        intro hal
        have hal' : 0 < max (v.bit_width / 8) m := lt_of_lt_of_eq hal h5.symm
        rw [← h5, ← h4]
        simp only [emplace]
        exact alignUp_mod _ _ hal'
      · obtain ⟨u, hu, h2⟩ := ih _ e he name slot data off al heq
        exact ⟨u, List.mem_cons_of_mem v hu, h2⟩
    | kBoolean =>
      simp only [bindLoop, ht, List.mem_cons, List.not_mem_nil, or_false] at he
      subst he; simp at heq
    | kSignedByte =>
      simp only [bindLoop, ht, List.mem_cons, List.not_mem_nil, or_false] at he
      subst he; simp at heq
    | kUnsignedByte =>
      simp only [bindLoop, ht, List.mem_cons, List.not_mem_nil, or_false] at he
      subst he; simp at heq
    | kSignedShort =>
      simp only [bindLoop, ht, List.mem_cons, List.not_mem_nil, or_false] at he
      subst he; simp at heq
    | kUnsignedShort =>
      simp only [bindLoop, ht, List.mem_cons, List.not_mem_nil, or_false] at he
      subst he; simp at heq
    | kSignedInt =>
      simp only [bindLoop, ht, List.mem_cons, List.not_mem_nil, or_false] at he
      subst he; simp at heq
    | kUnsignedInt =>
      simp only [bindLoop, ht, List.mem_cons, List.not_mem_nil, or_false] at he
      subst he; simp at heq
    | kSignedInt64 =>
      simp only [bindLoop, ht, List.mem_cons, List.not_mem_nil, or_false] at he
      subst he; simp at heq
    | kUnsignedInt64 =>
      simp only [bindLoop, ht, List.mem_cons, List.not_mem_nil, or_false] at he
      subst he; simp at heq
    | kHalfFloat =>
      simp only [bindLoop, ht, List.mem_cons, List.not_mem_nil, or_false] at he
      subst he; simp at heq
    | kDouble =>
      simp only [bindLoop, ht, List.mem_cons, List.not_mem_nil, or_false] at he
      subst he; simp at heq

/-- Every texture-binding event of the loop uses a sampler counter between
its initial value and that plus the layout's sampled-image count, binds
texture and sampler slots at that same counter, and reads exactly
`texture_inputs[sampler_index]`. -/
theorem bindLoop_texture_events (m : Nat) (blob : List Nat)
    (inputs : List TextureInput) (layout : List RuntimeUniform) :
    ∀ s : BindState, ∀ e ∈ (bindLoop m blob inputs layout s).1,
    ∀ name inp ti si, e = BindEvent.boundTexture name inp ti si →
      s.sampler_index ≤ si ∧
      si < s.sampler_index + countSampled layout ∧
      ti = si ∧ inp = inputs.get? si := by
  induction layout with
  | nil => intro s e he; simp [bindLoop] at he
  | cons v rest ih =>
    intro s e he name inp ti si heq
    cases ht : v.type with
    | kSampledImage =>
      simp only [bindLoop, ht, List.mem_cons] at he
      rcases he with rfl | he
      · simp only [BindEvent.boundTexture.injEq] at heq
        obtain ⟨_, h2, h3, h4⟩ := heq
        subst h4
        refine ⟨le_refl _, ?_, h3.symm, h2.symm⟩
        have : 0 < countSampled (v :: rest) := by
          simp [countSampled, List.countP_cons, ht]
        omega
      · obtain ⟨hb1, hb2, hb3, hb4⟩ := ih _ e he name inp ti si heq
        simp only [BindState.sampler_index] at hb1 hb2
        refine ⟨by omega, ?_, hb3, hb4⟩
        have : countSampled (v :: rest) = countSampled rest + 1 := by
          simp [countSampled, List.countP_cons, ht]
        omega
    | kFloat =>
      simp only [bindLoop, ht, List.mem_cons] at he
      rcases he with rfl | he
      · simp at heq
      · obtain ⟨hb1, hb2, hb3, hb4⟩ := ih _ e he name inp ti si heq
        simp only [emplace, BindState.sampler_index] at hb1 hb2
        refine ⟨hb1, ?_, hb3, hb4⟩
        have : countSampled (v :: rest) = countSampled rest := by
          simp [countSampled, List.countP_cons, ht]
        omega
    | kBoolean =>
      simp only [bindLoop, ht, List.mem_cons, List.not_mem_nil, or_false] at he
      subst he; simp at heq
    | kSignedByte =>
      simp only [bindLoop, ht, List.mem_cons, List.not_mem_nil, or_false] at he
      subst he; simp at heq
    | kUnsignedByte =>
      simp only [bindLoop, ht, List.mem_cons, List.not_mem_nil, or_false] at he
      subst he; simp at heq
    | kSignedShort =>
      simp only [bindLoop, ht, List.mem_cons, List.not_mem_nil, or_false] at he
      subst he; simp at heq
    | kUnsignedShort =>
      simp only [bindLoop, ht, List.mem_cons, List.not_mem_nil, or_false] at he
      subst he; simp at heq
    | kSignedInt =>
      simp only [bindLoop, ht, List.mem_cons, List.not_mem_nil, or_false] at he
      subst he; simp at heq
    | kUnsignedInt =>
      simp only [bindLoop, ht, List.mem_cons, List.not_mem_nil, or_false] at he
      subst he; simp at heq
    | kSignedInt64 =>
      simp only [bindLoop, ht, List.mem_cons, List.not_mem_nil, or_false] at he
      subst he; simp at heq
    | kUnsignedInt64 =>
      simp only [bindLoop, ht, List.mem_cons, List.not_mem_nil, or_false] at he
      subst he; simp at heq
    | kHalfFloat =>
      simp only [bindLoop, ht, List.mem_cons, List.not_mem_nil, or_false] at he
      subst he; simp at heq
    | kDouble =>
      simp only [bindLoop, ht, List.mem_cons, List.not_mem_nil, or_false] at he
      subst he; simp at heq

/-- Binding events are recovered exactly from the `bind` actions of a
trace segment. -/
theorem filterMap_bindEvent_map (es : List BindEvent) :
    (es.map RenderAction.bind).filterMap RenderAction.bindEvent = es := by
  induction es with
  | nil => rfl
  | cons e es ih => simp [RenderAction.bindEvent, ih]

/-- Composed form of the previous lemma, as produced by
`List.filterMap_map`. -/
theorem filterMap_bindEvent_comp (es : List BindEvent) :
    es.filterMap (RenderAction.bindEvent ∘ RenderAction.bind) = es := by
  induction es with
  | nil => rfl
  | cons e es ih => simp [RenderAction.bindEvent, Function.comp, ih]

/-- A predicate false on every `bind` action counts zero over a mapped
event segment. -/
theorem countP_map_bind (p : RenderAction → Bool) (es : List BindEvent)
    (hp : ∀ e, p (RenderAction.bind e) = false) :
    (es.map RenderAction.bind).countP p = 0 := by
  induction es with
  | nil => rfl
  | cons e es ih => simp [List.countP_cons, hp, ih]

/-- Explicit form of `renderAfterShader` when the pipeline is obtained and
the binding loop aborts on an unsupported uniform kind: the trace stops at
the binding events and the call reports success. -/
theorem afterShader_abort (env : RenderEnv) (stage : RuntimeStage)
    (blob : List Nat) (inputs : List TextureInput) (d : Nat) (dirtyOut : Bool)
    (hpipe : env.pipelineOk = true)
    (hab : (bindLoop env.minUniformAlignment blob inputs stage.uniforms
        ⟨env.transientsPos, 0, 0⟩).2.2 = true) :
    renderAfterShader env stage blob inputs d dirtyOut =
      { trace := vertActs env
          ++ [RenderAction.getPipeline (appliedOptions env),
              RenderAction.emplaceVertUniform]
          ++ ((bindLoop env.minUniformAlignment blob inputs stage.uniforms
              ⟨env.transientsPos, 0, 0⟩).1).map RenderAction.bind,
        ok := true, dirty := dirtyOut } := by
  simp [renderAfterShader, hpipe, hab]

/-- Explicit form of `renderAfterShader` when the pipeline is obtained and
the binding loop completes: the command is added and, on overdraw
prevention, the clip-restore draw follows and decides the result. -/
theorem afterShader_submit (env : RenderEnv) (stage : RuntimeStage)
    (blob : List Nat) (inputs : List TextureInput) (d : Nat) (dirtyOut : Bool)
    (hpipe : env.pipelineOk = true)
    (hab : (bindLoop env.minUniformAlignment blob inputs stage.uniforms
        ⟨env.transientsPos, 0, 0⟩).2.2 = false) :
    renderAfterShader env stage blob inputs d dirtyOut =
      { trace := vertActs env
          ++ [RenderAction.getPipeline (appliedOptions env),
              RenderAction.emplaceVertUniform]
          ++ ((bindLoop env.minUniformAlignment blob inputs stage.uniforms
              ⟨env.transientsPos, 0, 0⟩).1).map RenderAction.bind
          ++ [RenderAction.addCommand d (appliedOptions env)]
          ++ (if env.geometry.prevent_overdraw
              then [RenderAction.clipRestoreRender] else []),
        ok := if env.geometry.prevent_overdraw
              then env.clipRestoreResult else true,
        dirty := dirtyOut } := by
  cases ho : env.geometry.prevent_overdraw <;>
    simp [renderAfterShader, hpipe, hab, ho]

/-- On a successful shader phase, a `Render` call is `renderAfterShader`
with a clean stage, prefixed by shader-phase actions none of which is a
pipeline lookup, a command submission, a clip-restore draw or a binding. -/
theorem render_shaderOk (env : RenderEnv) (stage : RuntimeStage)
    (blob : List Nat) (inputs : List TextureInput) (d : Nat)
    (h : shaderOk env stage = true) :
    ∃ pre : List RenderAction,
      (∀ a ∈ pre, a.isGetPipeline = false ∧ a.isAddCommand = false ∧
        a.isClipRestore = false ∧ a.bindEvent = none) ∧
      Render env stage blob inputs d =
        { trace := pre ++ (renderAfterShader env stage blob inputs d false).trace,
          ok := (renderAfterShader env stage blob inputs d false).ok,
          dirty := (renderAfterShader env stage blob inputs d false).dirty } := by
  cases hf : env.functionFound <;> cases hd : stage.dirty
  · simp only [shaderOk, hf, hd] at h
    simp only [Bool.false_and, Bool.false_or, Bool.and_eq_true] at h
    refine ⟨[RenderAction.registerFunction stage.entrypoint,
             RenderAction.setClean], ?_, ?_⟩
    · intro a ha
      simp only [List.mem_cons, List.not_mem_nil, or_false] at ha
      rcases ha with rfl | rfl <;> exact ⟨rfl, rfl, rfl, rfl⟩
    · simp [Render, hf, hd, h.1, h.2]
  · simp only [shaderOk, hf, hd] at h
    simp only [Bool.false_and, Bool.false_or, Bool.and_eq_true] at h
    refine ⟨[RenderAction.registerFunction stage.entrypoint,
             RenderAction.setClean], ?_, ?_⟩
    · intro a ha
      simp only [List.mem_cons, List.not_mem_nil, or_false] at ha
      rcases ha with rfl | rfl <;> exact ⟨rfl, rfl, rfl, rfl⟩
    · simp [Render, hf, hd, h.1, h.2]
  · refine ⟨[], ?_, ?_⟩
    · intro a ha; exact absurd ha (List.not_mem_nil a)
    · simp [Render, hf, hd]
  · simp only [shaderOk, hf, hd] at h
    simp only [Bool.not_true, Bool.and_false, Bool.false_or,
      Bool.and_eq_true] at h
    refine ⟨[RenderAction.removePipelinesWithEntryPoint stage.entrypoint,
             RenderAction.unregisterFunction stage.entrypoint,
             RenderAction.registerFunction stage.entrypoint,
             RenderAction.setClean], ?_, ?_⟩
    · intro a ha
      simp only [List.mem_cons, List.not_mem_nil, or_false] at ha
      rcases ha with rfl | rfl | rfl | rfl <;> exact ⟨rfl, rfl, rfl, rfl⟩
    · simp [Render, hf, hd, h.1, h.2]

/-- **C3.** For every uniform layout of sampled-image entries interleaved
in any order among float entries (and no other kinds), after the binding
loop `buffer_index` equals the total number of entries (N+M) and
`sampler_index` equals the number of sampled-image entries (N);
`buffer_index` is incremented once per entry regardless of kind while
`sampler_index` only for sampled images; each sampled-image entry is bound
with texture index and sampler index both equal to the current
`sampler_index`, and each float entry at buffer slot equal to the current
`buffer_index`. -/
theorem slot_index_asymmetry (m pos : Nat) (blob : List Nat)
    (inputs : List TextureInput) (layout : List RuntimeUniform)
    (h : ∀ u ∈ layout, u.type = UniformType.kFloat ∨
      u.type = UniformType.kSampledImage) :
    (bindLoop m blob inputs layout ⟨pos, 0, 0⟩).2.1.buffer_index
      = layout.length ∧
    (bindLoop m blob inputs layout ⟨pos, 0, 0⟩).2.1.sampler_index
      = countSampled layout ∧
    (bindLoop m blob inputs layout ⟨pos, 0, 0⟩).2.2 = false ∧
    ∀ i u, layout.get? i = some u →
      (u.type = UniformType.kSampledImage →
        (bindLoop m blob inputs layout ⟨pos, 0, 0⟩).1.get? i =
          some (BindEvent.boundTexture u.name
            (inputs.get? (countSampled (layout.take i)))
            (countSampled (layout.take i)) (countSampled (layout.take i)))) ∧
      (u.type = UniformType.kFloat →
        ∃ data off al,
          (bindLoop m blob inputs layout ⟨pos, 0, 0⟩).1.get? i =
            some (BindEvent.boundBuffer u.name i data off al)) := by
  have hsup : ∀ u ∈ layout, u.type.supported = true := by
    intro u hu
    rcases h u hu with ht | ht <;> rw [ht] <;> rfl
  have hc := bindLoop_supported m blob inputs layout ⟨pos, 0, 0⟩ hsup
  refine ⟨?_, ?_, hc.1, ?_⟩
  · rw [hc.2.2.1]; simp
  · rw [hc.2.2.2]; simp
  · intro i u hi
    have hg := bindLoop_get m blob inputs layout ⟨pos, 0, 0⟩ hsup i u hi
    simpa using hg

/-- Witness for C3 on the layout [image, float, image]. -/
theorem slot_index_asymmetry_witness :
    (bindLoop 16 [0, 1, 2, 3] [⟨10, 20⟩, ⟨11, 21⟩]
      [⟨"s1", UniformType.kSampledImage, 0, 0, 0⟩,
       ⟨"f1", UniformType.kFloat, 32, 0, 4⟩,
       ⟨"s2", UniformType.kSampledImage, 0, 0, 0⟩] ⟨0, 0, 0⟩).2.1.buffer_index
      = ([⟨"s1", UniformType.kSampledImage, 0, 0, 0⟩,
          ⟨"f1", UniformType.kFloat, 32, 0, 4⟩,
          ⟨"s2", UniformType.kSampledImage, 0, 0, 0⟩] :
            List RuntimeUniform).length ∧
    (bindLoop 16 [0, 1, 2, 3] [⟨10, 20⟩, ⟨11, 21⟩]
      [⟨"s1", UniformType.kSampledImage, 0, 0, 0⟩,
       ⟨"f1", UniformType.kFloat, 32, 0, 4⟩,
       ⟨"s2", UniformType.kSampledImage, 0, 0, 0⟩] ⟨0, 0, 0⟩).2.1.sampler_index
      = countSampled
          [⟨"s1", UniformType.kSampledImage, 0, 0, 0⟩,
           ⟨"f1", UniformType.kFloat, 32, 0, 4⟩,
           ⟨"s2", UniformType.kSampledImage, 0, 0, 0⟩] ∧
    (bindLoop 16 [0, 1, 2, 3] [⟨10, 20⟩, ⟨11, 21⟩]
      [⟨"s1", UniformType.kSampledImage, 0, 0, 0⟩,
       ⟨"f1", UniformType.kFloat, 32, 0, 4⟩,
       ⟨"s2", UniformType.kSampledImage, 0, 0, 0⟩] ⟨0, 0, 0⟩).2.2 = false ∧
    ∀ i u,
      ([⟨"s1", UniformType.kSampledImage, 0, 0, 0⟩,
        ⟨"f1", UniformType.kFloat, 32, 0, 4⟩,
        ⟨"s2", UniformType.kSampledImage, 0, 0, 0⟩] :
          List RuntimeUniform).get? i = some u →
      (u.type = UniformType.kSampledImage →
        (bindLoop 16 [0, 1, 2, 3] [⟨10, 20⟩, ⟨11, 21⟩]
          [⟨"s1", UniformType.kSampledImage, 0, 0, 0⟩,
           ⟨"f1", UniformType.kFloat, 32, 0, 4⟩,
           ⟨"s2", UniformType.kSampledImage, 0, 0, 0⟩] ⟨0, 0, 0⟩).1.get? i =
          some (BindEvent.boundTexture u.name
            (([⟨10, 20⟩, ⟨11, 21⟩] : List TextureInput).get?
              (countSampled (([⟨"s1", UniformType.kSampledImage, 0, 0, 0⟩,
                ⟨"f1", UniformType.kFloat, 32, 0, 4⟩,
                ⟨"s2", UniformType.kSampledImage, 0, 0, 0⟩] :
                  List RuntimeUniform).take i)))
            (countSampled (([⟨"s1", UniformType.kSampledImage, 0, 0, 0⟩,
              ⟨"f1", UniformType.kFloat, 32, 0, 4⟩,
              ⟨"s2", UniformType.kSampledImage, 0, 0, 0⟩] :
                List RuntimeUniform).take i))
            (countSampled (([⟨"s1", UniformType.kSampledImage, 0, 0, 0⟩,
              ⟨"f1", UniformType.kFloat, 32, 0, 4⟩,
              ⟨"s2", UniformType.kSampledImage, 0, 0, 0⟩] :
                List RuntimeUniform).take i)))) ∧
      (u.type = UniformType.kFloat →
        ∃ data off al,
          (bindLoop 16 [0, 1, 2, 3] [⟨10, 20⟩, ⟨11, 21⟩]
            [⟨"s1", UniformType.kSampledImage, 0, 0, 0⟩,
             ⟨"f1", UniformType.kFloat, 32, 0, 4⟩,
             ⟨"s2", UniformType.kSampledImage, 0, 0, 0⟩] ⟨0, 0, 0⟩).1.get? i =
            some (BindEvent.boundBuffer u.name i data off al)) :=
  slot_index_asymmetry 16 0 [0, 1, 2, 3] [⟨10, 20⟩, ⟨11, 21⟩]
    [⟨"s1", UniformType.kSampledImage, 0, 0, 0⟩,
     ⟨"f1", UniformType.kFloat, 32, 0, 4⟩,
     ⟨"s2", UniformType.kSampledImage, 0, 0, 0⟩] (by decide)

/-- **C7.** Every float uniform entry is bound to the slice of the
caller's uniform blob starting at byte offset `location * 4` with length
`size`, allocated at alignment `max (bit_width / 8) minAlign`, the
allocated offset being a multiple of the alignment; in particular for
`bit_width = 32` the offset is a multiple of `max 4 minAlign`. -/
theorem float_uniform_slice_alignment (m : Nat) (blob : List Nat)
    (inputs : List TextureInput) (layout : List RuntimeUniform)
    (s : BindState) (e : BindEvent)
    (he : e ∈ (bindLoop m blob inputs layout s).1)
    (name : String) (slot : Nat) (data : List Nat) (off al : Nat)
    (heq : e = BindEvent.boundBuffer name slot data off al) :
    ∃ u, u ∈ layout ∧ u.type = UniformType.kFloat ∧ name = u.name ∧
      data = (blob.drop (u.location * 4)).take u.size ∧
      al = max (u.bit_width / 8) m ∧
      (0 < al → off % al = 0) ∧
      (u.bit_width = 32 → al = max 4 m ∧ off % max 4 m = 0) := by
  obtain ⟨u, hu, h1, h2, h3, h4, h5⟩ :=
    bindLoop_buffer_events m blob inputs layout s e he name slot data off al heq
  refine ⟨u, hu, h1, h2, h3, h4, h5, ?_⟩
  intro h32
  have hal : al = max 4 m := by rw [h4, h32]
  have hpos : 0 < al := by
    rw [hal]
    exact lt_of_lt_of_le (by norm_num) (le_max_left 4 m)
  exact ⟨hal, hal ▸ h5 hpos⟩

/-- Witness for C7 on a single 32-bit float entry at location 1, size 8,
with minimum alignment 0 and buffer position 3. -/
theorem float_uniform_slice_alignment_witness :
    ∃ u, u ∈ [(⟨"a", UniformType.kFloat, 32, 1, 8⟩ : RuntimeUniform)] ∧
      u.type = UniformType.kFloat ∧ "a" = u.name ∧
      [4, 5, 6, 7, 8, 9, 10, 11]
        = (([0, 1, 2, 3, 4, 5, 6, 7, 8, 9, 10, 11] : List Nat).drop
            (u.location * 4)).take u.size ∧
      4 = max (u.bit_width / 8) 0 ∧
      (0 < 4 → 4 % 4 = 0) ∧
      (u.bit_width = 32 → 4 = max 4 0 ∧ 4 % max 4 0 = 0) :=
  float_uniform_slice_alignment 0 [0, 1, 2, 3, 4, 5, 6, 7, 8, 9, 10, 11] []
    [⟨"a", UniformType.kFloat, 32, 1, 8⟩] ⟨3, 0, 0⟩
    (BindEvent.boundBuffer "a" 0 [4, 5, 6, 7, 8, 9, 10, 11] 4 4)
    (by decide) "a" 0 [4, 5, 6, 7, 8, 9, 10, 11] 4 4 rfl

/-- **C10.** If the number of supplied texture inputs is at least the
number of sampled-image entries in the layout, every
`texture_inputs[sampler_index]` access performed during binding is in
bounds: the out-of-range branch guarded only by the debug assertion is
unreachable. -/
theorem texture_inputs_access_in_bounds (m pos : Nat) (blob : List Nat)
    (inputs : List TextureInput) (layout : List RuntimeUniform)
    (hN : countSampled layout ≤ inputs.length) :
    ∀ e ∈ (bindLoop m blob inputs layout ⟨pos, 0, 0⟩).1,
    ∀ name inp ti si, e = BindEvent.boundTexture name inp ti si →
      si < inputs.length ∧ ti = si ∧ inp = inputs.get? si ∧
      (inputs.get? si).isSome = true := by
  intro e he name inp ti si heq
  obtain ⟨h1, h2, h3, h4⟩ :=
    bindLoop_texture_events m blob inputs layout ⟨pos, 0, 0⟩ e he
      name inp ti si heq
  simp only at h2
  have hsi : si < inputs.length := by omega
  refine ⟨hsi, h3, h4, ?_⟩
  cases hq : inputs.get? si with
  | none =>
    rw [List.get?_eq_none] at hq
    omega
  | some t => rfl

/-- Witness for C10 at the second texture binding of a layout with two
sampled images and two inputs. -/
theorem texture_inputs_access_in_bounds_witness :
    (1 : Nat) < ([⟨10, 20⟩, ⟨11, 21⟩] : List TextureInput).length ∧
    (1 : Nat) = 1 ∧
    some (⟨11, 21⟩ : TextureInput)
      = ([⟨10, 20⟩, ⟨11, 21⟩] : List TextureInput).get? 1 ∧
    (([⟨10, 20⟩, ⟨11, 21⟩] : List TextureInput).get? 1).isSome = true :=
  texture_inputs_access_in_bounds 16 0 [] [⟨10, 20⟩, ⟨11, 21⟩]
    [⟨"s1", UniformType.kSampledImage, 0, 0, 0⟩,
     ⟨"s2", UniformType.kSampledImage, 0, 0, 0⟩] (by decide)
    (BindEvent.boundTexture "s2" (some ⟨11, 21⟩) 1 1) (by decide)
    "s2" (some ⟨11, 21⟩) 1 1 rfl

/-- The post-shader phase never touches the dirty flag. -/
theorem afterShader_dirty (env : RenderEnv) (stage : RuntimeStage)
    (blob : List Nat) (inputs : List TextureInput) (d : Nat)
    (dirtyOut : Bool) :
    (renderAfterShader env stage blob inputs d dirtyOut).dirty = dirtyOut := by
  cases hp : env.pipelineOk <;>
    cases hb : (bindLoop env.minUniformAlignment blob inputs stage.uniforms
      ⟨env.transientsPos, 0, 0⟩).2.2 <;>
    cases ho : env.geometry.prevent_overdraw <;>
    simp [renderAfterShader, hp, hb, ho]

/-- The post-shader phase performs no `setClean`. -/
theorem afterShader_no_setClean (env : RenderEnv) (stage : RuntimeStage)
    (blob : List Nat) (inputs : List TextureInput) (d : Nat)
    (dirtyOut : Bool) :
    ((renderAfterShader env stage blob inputs d dirtyOut).trace).countP
      RenderAction.isSetClean = 0 := by
  cases hv : env.vertexLayoutOk <;> cases hp : env.pipelineOk <;>
    cases hb : (bindLoop env.minUniformAlignment blob inputs stage.uniforms
      ⟨env.transientsPos, 0, 0⟩).2.2 <;>
    cases ho : env.geometry.prevent_overdraw <;>
    simp [renderAfterShader, vertActs, hv, hp, hb, ho, List.countP_append,
      List.countP_cons, RenderAction.isSetClean,
      countP_map_bind RenderAction.isSetClean _ (fun _ => rfl)]

/-- **C2.** For every `Render` call on a stage whose fragment function is
found in the shader library and whose dirty flag is set, the trace begins
with the pipeline eviction, the unregistration, and the re-registration of
the function, in that order, and every pipeline lookup occurs strictly
after them. -/
theorem dirty_eviction_precedes_lookup (env : RenderEnv)
    (stage : RuntimeStage) (blob : List Nat) (inputs : List TextureInput)
    (d : Nat) (hf : env.functionFound = true) (hd : stage.dirty = true) :
    (Render env stage blob inputs d).trace.get? 0 =
      some (RenderAction.removePipelinesWithEntryPoint stage.entrypoint) ∧
    (Render env stage blob inputs d).trace.get? 1 =
      some (RenderAction.unregisterFunction stage.entrypoint) ∧
    (Render env stage blob inputs d).trace.get? 2 =
      some (RenderAction.registerFunction stage.entrypoint) ∧
    ∀ i o, (Render env stage blob inputs d).trace.get? i =
      some (RenderAction.getPipeline o) → 3 ≤ i := by
  cases hr : env.registerResult <;> cases hre : env.refetchFound <;>
    refine ⟨by simp [Render, hf, hd, hr, hre],
      by simp [Render, hf, hd, hr, hre],
      by simp [Render, hf, hd, hr, hre], ?_⟩ <;>
    · intro i o hio
      rcases i with _ | _ | _ | i
      · simp [Render, hf, hd, hr, hre] at hio
      · simp [Render, hf, hd, hr, hre] at hio
      · simp [Render, hf, hd, hr, hre] at hio
      · omega

/-- Witness for C2: dirty stage with found function, registration failing. -/
theorem dirty_eviction_precedes_lookup_witness :
    (Render ⟨true, false, false, ⟨false, 4⟩, ⟨.kAlways, .kKeep, 0⟩,
        true, true, true, 16, 0⟩
      ⟨"main", true, []⟩ [] [] 0).trace.get? 0 =
      some (RenderAction.removePipelinesWithEntryPoint "main") ∧
    (Render ⟨true, false, false, ⟨false, 4⟩, ⟨.kAlways, .kKeep, 0⟩,
        true, true, true, 16, 0⟩
      ⟨"main", true, []⟩ [] [] 0).trace.get? 1 =
      some (RenderAction.unregisterFunction "main") ∧
    (Render ⟨true, false, false, ⟨false, 4⟩, ⟨.kAlways, .kKeep, 0⟩,
        true, true, true, 16, 0⟩
      ⟨"main", true, []⟩ [] [] 0).trace.get? 2 =
      some (RenderAction.registerFunction "main") ∧
    ∀ i o, (Render ⟨true, false, false, ⟨false, 4⟩, ⟨.kAlways, .kKeep, 0⟩,
        true, true, true, 16, 0⟩
      ⟨"main", true, []⟩ [] [] 0).trace.get? i =
      some (RenderAction.getPipeline o) → 3 ≤ i :=
  dirty_eviction_precedes_lookup
    ⟨true, false, false, ⟨false, 4⟩, ⟨.kAlways, .kKeep, 0⟩,
      true, true, true, 16, 0⟩
    ⟨"main", true, []⟩ [] [] 0 rfl rfl

/-- **C4.** When the fragment function is not cached (or was evicted as
dirty) and the backend compiler reports registration failure, `Render`
returns false with the diagnostic naming the entry point as its last
action, attempts no pipeline lookup and submits no command, caches
nothing (`setClean` never runs), and leaves the dirty flag unchanged. -/
theorem registration_failure_fails_fast (env : RenderEnv)
    (stage : RuntimeStage) (blob : List Nat) (inputs : List TextureInput)
    (d : Nat) (hmiss : env.functionFound = false ∨ stage.dirty = true)
    (hreg : env.registerResult = false) :
    (Render env stage blob inputs d).ok = false ∧
    (Render env stage blob inputs d).trace.countP
      RenderAction.isGetPipeline = 0 ∧
    (Render env stage blob inputs d).trace.countP
      RenderAction.isAddCommand = 0 ∧
    (Render env stage blob inputs d).trace.countP
      RenderAction.isSetClean = 0 ∧
    (∃ pre, (Render env stage blob inputs d).trace =
      pre ++ [RenderAction.logValidation (buildFailMsg stage.entrypoint)]) ∧
    (Render env stage blob inputs d).dirty = stage.dirty := by
  rcases hmiss with hf | hd
  · cases hd2 : stage.dirty
    · refine ⟨?_, ?_, ?_, ?_, ⟨[RenderAction.registerFunction
        stage.entrypoint], ?_⟩, ?_⟩ <;>
        simp [Render, hf, hd2, hreg, List.countP_cons,
          RenderAction.isGetPipeline, RenderAction.isAddCommand,
          RenderAction.isSetClean]
    · refine ⟨?_, ?_, ?_, ?_, ⟨[RenderAction.registerFunction
        stage.entrypoint], ?_⟩, ?_⟩ <;>
        simp [Render, hf, hd2, hreg, List.countP_cons,
          RenderAction.isGetPipeline, RenderAction.isAddCommand,
          RenderAction.isSetClean]
  · cases hf2 : env.functionFound
    · refine ⟨?_, ?_, ?_, ?_, ⟨[RenderAction.registerFunction
        stage.entrypoint], ?_⟩, ?_⟩ <;>
        simp [Render, hf2, hd, hreg, List.countP_cons,
          RenderAction.isGetPipeline, RenderAction.isAddCommand,
          RenderAction.isSetClean]
    · refine ⟨?_, ?_, ?_, ?_,
        ⟨[RenderAction.removePipelinesWithEntryPoint stage.entrypoint,
          RenderAction.unregisterFunction stage.entrypoint,
          RenderAction.registerFunction stage.entrypoint], ?_⟩, ?_⟩ <;>
        simp [Render, hf2, hd, hreg, List.countP_cons,
          RenderAction.isGetPipeline, RenderAction.isAddCommand,
          RenderAction.isSetClean]

/-- Witness for C4: function not found, registration fails. -/
theorem registration_failure_fails_fast_witness :
    (Render ⟨false, false, true, ⟨false, 4⟩, ⟨.kAlways, .kKeep, 0⟩,
        true, true, true, 16, 0⟩ ⟨"main", false, []⟩ [] [] 0).ok = false ∧
    (Render ⟨false, false, true, ⟨false, 4⟩, ⟨.kAlways, .kKeep, 0⟩,
        true, true, true, 16, 0⟩ ⟨"main", false, []⟩ [] [] 0).trace.countP
      RenderAction.isGetPipeline = 0 ∧
    (Render ⟨false, false, true, ⟨false, 4⟩, ⟨.kAlways, .kKeep, 0⟩,
        true, true, true, 16, 0⟩ ⟨"main", false, []⟩ [] [] 0).trace.countP
      RenderAction.isAddCommand = 0 ∧
    (Render ⟨false, false, true, ⟨false, 4⟩, ⟨.kAlways, .kKeep, 0⟩,
        true, true, true, 16, 0⟩ ⟨"main", false, []⟩ [] [] 0).trace.countP
      RenderAction.isSetClean = 0 ∧
    (∃ pre, (Render ⟨false, false, true, ⟨false, 4⟩, ⟨.kAlways, .kKeep, 0⟩,
        true, true, true, 16, 0⟩ ⟨"main", false, []⟩ [] [] 0).trace =
      pre ++ [RenderAction.logValidation (buildFailMsg "main")]) ∧
    (Render ⟨false, false, true, ⟨false, 4⟩, ⟨.kAlways, .kKeep, 0⟩,
        true, true, true, 16, 0⟩ ⟨"main", false, []⟩ [] [] 0).dirty = false :=
  registration_failure_fails_fast
    ⟨false, false, true, ⟨false, 4⟩, ⟨.kAlways, .kKeep, 0⟩,
      true, true, true, 16, 0⟩
    ⟨"main", false, []⟩ [] [] 0 (Or.inl rfl) rfl

/-- **C5.** On the registration path, after the backend reports success the
function is re-fetched: if the fetch returns null, `Render` logs the fetch
diagnostic and returns false with the dirty flag untouched; `setClean`
runs exactly on the success-and-fetched path, where the dirty flag ends
cleared. -/
theorem setclean_exactly_on_fetch_success (env : RenderEnv)
    (stage : RuntimeStage) (blob : List Nat) (inputs : List TextureInput)
    (d : Nat) (hmiss : env.functionFound = false ∨ stage.dirty = true)
    (hreg : env.registerResult = true) :
    ((Render env stage blob inputs d).trace.countP RenderAction.isSetClean
      = if env.refetchFound then 1 else 0) ∧
    (env.refetchFound = true → (Render env stage blob inputs d).dirty
      = false) ∧
    (env.refetchFound = false →
      (Render env stage blob inputs d).ok = false ∧
      (Render env stage blob inputs d).dirty = stage.dirty ∧
      ∃ pre, (Render env stage blob inputs d).trace =
        pre ++ [RenderAction.logValidation (fetchFailMsg stage.entrypoint)]) := by
  have hns := afterShader_no_setClean env stage blob inputs d false
  have hdt := afterShader_dirty env stage blob inputs d false
  refine ⟨?_, ?_, ?_⟩
  · rcases hmiss with hf | hd
    · cases hd2 : stage.dirty <;> cases hre : env.refetchFound <;>
        simp [Render, hf, hd2, hreg, hre, List.countP_append,
          List.countP_cons, RenderAction.isSetClean, hns]
    · cases hf2 : env.functionFound <;> cases hre : env.refetchFound <;>
        simp [Render, hf2, hd, hreg, hre, List.countP_append,
          List.countP_cons, RenderAction.isSetClean, hns]
  · intro hre
    rcases hmiss with hf | hd
    · cases hd2 : stage.dirty <;>
        simp [Render, hf, hd2, hreg, hre, hdt]
    · cases hf2 : env.functionFound <;>
        simp [Render, hf2, hd, hreg, hre, hdt]
  · intro hre
    refine ⟨?_, ?_, ?_⟩
    · rcases hmiss with hf | hd
      · cases hd2 : stage.dirty <;> simp [Render, hf, hd2, hreg, hre]
      · cases hf2 : env.functionFound <;> simp [Render, hf2, hd, hreg, hre]
    · rcases hmiss with hf | hd
      · cases hd2 : stage.dirty <;> simp [Render, hf, hd2, hreg, hre]
      · cases hf2 : env.functionFound <;> simp [Render, hf2, hd, hreg, hre]
    · rcases hmiss with hf | hd
      · cases hd2 : stage.dirty
        · exact ⟨[RenderAction.registerFunction stage.entrypoint],
            by simp [Render, hf, hd2, hreg, hre]⟩
        · exact ⟨[RenderAction.registerFunction stage.entrypoint],
            by simp [Render, hf, hd2, hreg, hre]⟩
      · cases hf2 : env.functionFound
        · exact ⟨[RenderAction.registerFunction stage.entrypoint],
            by simp [Render, hf2, hd, hreg, hre]⟩
        · exact ⟨[RenderAction.removePipelinesWithEntryPoint stage.entrypoint,
            RenderAction.unregisterFunction stage.entrypoint,
            RenderAction.registerFunction stage.entrypoint],
            by simp [Render, hf2, hd, hreg, hre]⟩

/-- Witness for C5: miss path, registration succeeds, re-fetch fails. -/
theorem setclean_exactly_on_fetch_success_witness :
    ((Render ⟨false, true, false, ⟨false, 4⟩, ⟨.kAlways, .kKeep, 0⟩,
        true, true, true, 16, 0⟩ ⟨"main", false, []⟩ [] [] 0).trace.countP
      RenderAction.isSetClean = if false then 1 else 0) ∧
    ((false : Bool) = true →
      (Render ⟨false, true, false, ⟨false, 4⟩, ⟨.kAlways, .kKeep, 0⟩,
        true, true, true, 16, 0⟩ ⟨"main", false, []⟩ [] [] 0).dirty
        = false) ∧
    ((false : Bool) = false →
      (Render ⟨false, true, false, ⟨false, 4⟩, ⟨.kAlways, .kKeep, 0⟩,
        true, true, true, 16, 0⟩ ⟨"main", false, []⟩ [] [] 0).ok = false ∧
      (Render ⟨false, true, false, ⟨false, 4⟩, ⟨.kAlways, .kKeep, 0⟩,
        true, true, true, 16, 0⟩ ⟨"main", false, []⟩ [] [] 0).dirty = false ∧
      ∃ pre, (Render ⟨false, true, false, ⟨false, 4⟩, ⟨.kAlways, .kKeep, 0⟩,
        true, true, true, 16, 0⟩ ⟨"main", false, []⟩ [] [] 0).trace =
        pre ++ [RenderAction.logValidation (fetchFailMsg "main")]) :=
  setclean_exactly_on_fetch_success
    ⟨false, true, false, ⟨false, 4⟩, ⟨.kAlways, .kKeep, 0⟩,
      true, true, true, 16, 0⟩
    ⟨"main", false, []⟩ [] [] 0 (Or.inl rfl) rfl

/-- **C1 (counterexample).** For the layout [float "u0", boolean "u1",
float "u2"] with the shader cached and the pipeline available, the render
call binds entry 0, logs and aborts at entry 1, never processes entry 2,
returns true — but the trace contains no `addCommand`: the command
assembled so far is never submitted to the render pass, contradicting the
claim that it is. -/
theorem unsupported_uniform_submit_counterexample :
    (Render ⟨true, false, false, ⟨false, 4⟩, ⟨.kAlways, .kKeep, 0⟩,
        true, true, true, 16, 0⟩
      ⟨"main", false,
        [⟨"u0", UniformType.kFloat, 32, 0, 4⟩,
         ⟨"u1", UniformType.kBoolean, 8, 1, 1⟩,
         ⟨"u2", UniformType.kFloat, 32, 2, 4⟩]⟩
      [0, 1, 2, 3, 4, 5, 6, 7, 8, 9, 10, 11] [] 0).ok = true ∧
    (Render ⟨true, false, false, ⟨false, 4⟩, ⟨.kAlways, .kKeep, 0⟩,
        true, true, true, 16, 0⟩
      ⟨"main", false,
        [⟨"u0", UniformType.kFloat, 32, 0, 4⟩,
         ⟨"u1", UniformType.kBoolean, 8, 1, 1⟩,
         ⟨"u2", UniformType.kFloat, 32, 2, 4⟩]⟩
      [0, 1, 2, 3, 4, 5, 6, 7, 8, 9, 10, 11] [] 0).trace.countP
      RenderAction.isAddCommand = 0 ∧
    (Render ⟨true, false, false, ⟨false, 4⟩, ⟨.kAlways, .kKeep, 0⟩,
        true, true, true, 16, 0⟩
      ⟨"main", false,
        [⟨"u0", UniformType.kFloat, 32, 0, 4⟩,
         ⟨"u1", UniformType.kBoolean, 8, 1, 1⟩,
         ⟨"u2", UniformType.kFloat, 32, 2, 4⟩]⟩
      [0, 1, 2, 3, 4, 5, 6, 7, 8, 9, 10, 11] [] 0).trace =
      [RenderAction.getPipeline ⟨.kAlways, .kKeep, 4⟩,
       RenderAction.emplaceVertUniform,
       RenderAction.bind (BindEvent.boundBuffer "u0" 0 [0, 1, 2, 3] 0 16),
       RenderAction.bind (BindEvent.logUnsupported "u1")] :=
  ⟨rfl, rfl, rfl⟩

/-- **C1 (amended).** For every uniform layout with an entry of an
unsupported kind preceded by supported entries, a render call that reaches
binding logs a validation diagnostic naming that uniform, processes no
further layout entries after it, returns success (true) — and the
partially assembled command is dropped: it is never submitted to the
render pass (no `addCommand` occurs, and no clip-restore draw either). -/
theorem unsupported_uniform_truncates_and_drops_command (env : RenderEnv)
    (stage : RuntimeStage) (blob : List Nat) (inputs : List TextureInput)
    (d : Nat) (upre usuf : List RuntimeUniform) (u : RuntimeUniform)
    (hsh : shaderOk env stage = true) (hpipe : env.pipelineOk = true)
    (hlay : stage.uniforms = upre ++ u :: usuf)
    (hpre : ∀ v ∈ upre, v.type.supported = true)
    (hu : u.type.supported = false) :
    (Render env stage blob inputs d).ok = true ∧
    (Render env stage blob inputs d).trace.countP
      RenderAction.isAddCommand = 0 ∧
    (Render env stage blob inputs d).trace.countP
      RenderAction.isClipRestore = 0 ∧
    (Render env stage blob inputs d).trace.filterMap
      RenderAction.bindEvent =
      (bindLoop env.minUniformAlignment blob inputs upre
        ⟨env.transientsPos, 0, 0⟩).1 ++ [BindEvent.logUnsupported u.name] := by
  have hnoab := (bindLoop_supported env.minUniformAlignment blob inputs upre
    ⟨env.transientsPos, 0, 0⟩ hpre).1
  have happ := bindLoop_append env.minUniformAlignment blob inputs upre
    (u :: usuf) ⟨env.transientsPos, 0, 0⟩ hnoab
  have habort := bindLoop_unsupported_cons env.minUniformAlignment blob
    inputs u usuf
    (bindLoop env.minUniformAlignment blob inputs upre
      ⟨env.transientsPos, 0, 0⟩).2.1 hu
  have hfull : bindLoop env.minUniformAlignment blob inputs stage.uniforms
      ⟨env.transientsPos, 0, 0⟩
      = ((bindLoop env.minUniformAlignment blob inputs upre
            ⟨env.transientsPos, 0, 0⟩).1
          ++ [BindEvent.logUnsupported u.name],
         (bindLoop env.minUniformAlignment blob inputs upre
           ⟨env.transientsPos, 0, 0⟩).2.1, true) := by
    rw [hlay, happ, habort]
  obtain ⟨pre0, hprop, heq⟩ := render_shaderOk env stage blob inputs d hsh
  have hab2 : (bindLoop env.minUniformAlignment blob inputs stage.uniforms
      ⟨env.transientsPos, 0, 0⟩).2.2 = true := by rw [hfull]
  have hafter := afterShader_abort env stage blob inputs d false hpipe hab2
  have hpre0add : pre0.countP RenderAction.isAddCommand = 0 :=
    List.countP_eq_zero.mpr (fun a ha => by simp [(hprop a ha).2.1])
  have hpre0clip : pre0.countP RenderAction.isClipRestore = 0 :=
    List.countP_eq_zero.mpr (fun a ha => by simp [(hprop a ha).2.2.1])
  have hpre0bind : pre0.filterMap RenderAction.bindEvent = [] :=
    List.filterMap_eq_nil.mpr (fun a ha => (hprop a ha).2.2.2)
  rw [heq, hafter]
  simp only [hfull]
  cases hv : env.vertexLayoutOk <;>
    simp [vertActs, hv, List.countP_append, List.countP_cons,
      List.filterMap_append, hpre0add, hpre0clip, hpre0bind,
      filterMap_bindEvent_map, filterMap_bindEvent_comp,
      RenderAction.bindEvent, RenderAction.isAddCommand,
      RenderAction.isClipRestore,
      countP_map_bind RenderAction.isAddCommand _ (fun _ => rfl),
      countP_map_bind RenderAction.isClipRestore _ (fun _ => rfl)]

/-- Witness for the amended C1 on the counterexample's input. -/
theorem unsupported_uniform_truncates_witness :
    (Render ⟨true, false, false, ⟨false, 4⟩, ⟨.kAlways, .kKeep, 0⟩,
        true, true, true, 16, 0⟩
      ⟨"main", false,
        [⟨"u0", UniformType.kFloat, 32, 0, 4⟩,
         ⟨"u1", UniformType.kBoolean, 8, 1, 1⟩,
         ⟨"u2", UniformType.kFloat, 32, 2, 4⟩]⟩
      [0, 1, 2, 3, 4, 5, 6, 7, 8, 9, 10, 11] [] 0).ok = true ∧
    (Render ⟨true, false, false, ⟨false, 4⟩, ⟨.kAlways, .kKeep, 0⟩,
        true, true, true, 16, 0⟩
      ⟨"main", false,
        [⟨"u0", UniformType.kFloat, 32, 0, 4⟩,
         ⟨"u1", UniformType.kBoolean, 8, 1, 1⟩,
         ⟨"u2", UniformType.kFloat, 32, 2, 4⟩]⟩
      [0, 1, 2, 3, 4, 5, 6, 7, 8, 9, 10, 11] [] 0).trace.countP
      RenderAction.isAddCommand = 0 ∧
    (Render ⟨true, false, false, ⟨false, 4⟩, ⟨.kAlways, .kKeep, 0⟩,
        true, true, true, 16, 0⟩
      ⟨"main", false,
        [⟨"u0", UniformType.kFloat, 32, 0, 4⟩,
         ⟨"u1", UniformType.kBoolean, 8, 1, 1⟩,
         ⟨"u2", UniformType.kFloat, 32, 2, 4⟩]⟩
      [0, 1, 2, 3, 4, 5, 6, 7, 8, 9, 10, 11] [] 0).trace.countP
      RenderAction.isClipRestore = 0 ∧
    (Render ⟨true, false, false, ⟨false, 4⟩, ⟨.kAlways, .kKeep, 0⟩,
        true, true, true, 16, 0⟩
      ⟨"main", false,
        [⟨"u0", UniformType.kFloat, 32, 0, 4⟩,
         ⟨"u1", UniformType.kBoolean, 8, 1, 1⟩,
         ⟨"u2", UniformType.kFloat, 32, 2, 4⟩]⟩
      [0, 1, 2, 3, 4, 5, 6, 7, 8, 9, 10, 11] [] 0).trace.filterMap
      RenderAction.bindEvent =
      (bindLoop 16 [0, 1, 2, 3, 4, 5, 6, 7, 8, 9, 10, 11] []
        [⟨"u0", UniformType.kFloat, 32, 0, 4⟩] ⟨0, 0, 0⟩).1
        ++ [BindEvent.logUnsupported "u1"] :=
  unsupported_uniform_truncates_and_drops_command
    ⟨true, false, false, ⟨false, 4⟩, ⟨.kAlways, .kKeep, 0⟩,
      true, true, true, 16, 0⟩
    ⟨"main", false,
      [⟨"u0", UniformType.kFloat, 32, 0, 4⟩,
       ⟨"u1", UniformType.kBoolean, 8, 1, 1⟩,
       ⟨"u2", UniformType.kFloat, 32, 2, 4⟩]⟩
    [0, 1, 2, 3, 4, 5, 6, 7, 8, 9, 10, 11] [] 0
    [⟨"u0", UniformType.kFloat, 32, 0, 4⟩]
    [⟨"u2", UniformType.kFloat, 32, 2, 4⟩]
    ⟨"u1", UniformType.kBoolean, 8, 1, 1⟩
    rfl rfl rfl (by decide) rfl

/-- The vertex-layout warning segment never contains an action on which a
log-indifferent predicate holds. -/
theorem countP_vertActs (env : RenderEnv) (p : RenderAction → Bool)
    (hp : ∀ msg, p (RenderAction.logValidation msg) = false) :
    (vertActs env).countP p = 0 := by
  unfold vertActs
  split <;> simp [hp]

/-- The result of the post-shader phase does not depend on the
vertex-layout outcome (nor on any of the shader-phase fields). -/
theorem afterShader_ok_congr (env1 env2 : RenderEnv) (stage : RuntimeStage)
    (blob : List Nat) (inputs : List TextureInput) (d : Nat)
    (dirtyOut : Bool)
    (h1 : env1.pipelineOk = env2.pipelineOk)
    (h2 : env1.minUniformAlignment = env2.minUniformAlignment)
    (h3 : env1.transientsPos = env2.transientsPos)
    (h4 : env1.geometry = env2.geometry)
    (h5 : env1.clipRestoreResult = env2.clipRestoreResult) :
    (renderAfterShader env1 stage blob inputs d dirtyOut).ok
      = (renderAfterShader env2 stage blob inputs d dirtyOut).ok := by
  cases hp : env2.pipelineOk <;>
    cases hb : (bindLoop env2.minUniformAlignment blob inputs stage.uniforms
      ⟨env2.transientsPos, 0, 0⟩).2.2 <;>
    cases ho : env2.geometry.prevent_overdraw <;>
    simp [renderAfterShader, h1, h2, h3, h4, h5, hp, hb, ho]

/-- When applying the vertex stage inputs fails, the warning is logged in
every post-shader outcome. -/
theorem afterShader_vertLog (env : RenderEnv) (stage : RuntimeStage)
    (blob : List Nat) (inputs : List TextureInput) (d : Nat)
    (dirtyOut : Bool) (hv : env.vertexLayoutOk = false) :
    RenderAction.logValidation vertexLayoutMsg ∈
      (renderAfterShader env stage blob inputs d dirtyOut).trace := by
  cases hp : env.pipelineOk <;>
    cases hb : (bindLoop env.minUniformAlignment blob inputs stage.uniforms
      ⟨env.transientsPos, 0, 0⟩).2.2 <;>
    cases ho : env.geometry.prevent_overdraw <;>
    simp [renderAfterShader, vertActs, hv, hp, hb, ho]

/-- **C6.** For every render call reaching submission with
`prevent_overdraw` set, the pipeline options are overridden to stencil
compare equal and operation increment-clamp and exactly one clip-restore
draw follows (never replaces) the command added to the pass; with
`prevent_overdraw` unset, no clip-restore draw occurs and the stencil
options stay at the pass/entity defaults. -/
theorem overdraw_stencil_override_and_cliprestore (env : RenderEnv)
    (stage : RuntimeStage) (blob : List Nat) (inputs : List TextureInput)
    (d : Nat) (hsh : shaderOk env stage = true)
    (hpipe : env.pipelineOk = true)
    (hbind : (bindLoop env.minUniformAlignment blob inputs stage.uniforms
      ⟨env.transientsPos, 0, 0⟩).2.2 = false) :
    (env.geometry.prevent_overdraw = true →
      (appliedOptions env).stencil_compare = CompareFunction.kEqual ∧
      (appliedOptions env).stencil_operation
        = StencilOperation.kIncrementClamp ∧
      (Render env stage blob inputs d).trace.countP
        RenderAction.isClipRestore = 1 ∧
      (Render env stage blob inputs d).trace.countP
        RenderAction.isAddCommand = 1 ∧
      ∃ pre, (Render env stage blob inputs d).trace =
        pre ++ [RenderAction.addCommand d (appliedOptions env),
                RenderAction.clipRestoreRender]) ∧
    (env.geometry.prevent_overdraw = false →
      (Render env stage blob inputs d).trace.countP
        RenderAction.isClipRestore = 0 ∧
      (appliedOptions env).stencil_compare
        = env.passEntityOptions.stencil_compare ∧
      (appliedOptions env).stencil_operation
        = env.passEntityOptions.stencil_operation ∧
      ∃ pre, (Render env stage blob inputs d).trace =
        pre ++ [RenderAction.addCommand d (appliedOptions env)]) := by
  obtain ⟨pre0, hprop, heq⟩ := render_shaderOk env stage blob inputs d hsh
  have hafter := afterShader_submit env stage blob inputs d false hpipe hbind
  have hpre0clip : pre0.countP RenderAction.isClipRestore = 0 :=
    List.countP_eq_zero.mpr (fun a ha => by simp [(hprop a ha).2.2.1])
  have hpre0add : pre0.countP RenderAction.isAddCommand = 0 :=
    List.countP_eq_zero.mpr (fun a ha => by simp [(hprop a ha).2.1])
  rw [heq, hafter]
  constructor
  · intro ho
    refine ⟨by simp [appliedOptions, ho], by simp [appliedOptions, ho],
      ?_, ?_, ?_⟩
    · simp [ho, List.countP_append, List.countP_cons, hpre0clip,
        RenderAction.isClipRestore,
        countP_vertActs env RenderAction.isClipRestore (fun _ => rfl),
        countP_map_bind RenderAction.isClipRestore _ (fun _ => rfl)]
    · simp [ho, List.countP_append, List.countP_cons, hpre0add,
        RenderAction.isAddCommand,
        countP_vertActs env RenderAction.isAddCommand (fun _ => rfl),
        countP_map_bind RenderAction.isAddCommand _ (fun _ => rfl)]
    · refine ⟨pre0 ++ vertActs env
        ++ [RenderAction.getPipeline (appliedOptions env),
            RenderAction.emplaceVertUniform]
        ++ ((bindLoop env.minUniformAlignment blob inputs stage.uniforms
            ⟨env.transientsPos, 0, 0⟩).1).map RenderAction.bind, ?_⟩
      simp [ho]
  · intro ho
    refine ⟨?_, by simp [appliedOptions, ho], by simp [appliedOptions, ho],
      ?_⟩
    · simp [ho, List.countP_append, List.countP_cons, hpre0clip,
        RenderAction.isClipRestore,
        countP_vertActs env RenderAction.isClipRestore (fun _ => rfl),
        countP_map_bind RenderAction.isClipRestore _ (fun _ => rfl)]
    · refine ⟨pre0 ++ vertActs env
        ++ [RenderAction.getPipeline (appliedOptions env),
            RenderAction.emplaceVertUniform]
        ++ ((bindLoop env.minUniformAlignment blob inputs stage.uniforms
            ⟨env.transientsPos, 0, 0⟩).1).map RenderAction.bind, ?_⟩
      simp [ho]

/-- Witness for C6: overdraw prevention set, empty uniform layout. -/
theorem overdraw_stencil_override_witness :
    ((⟨true, false, false, ⟨true, 4⟩, ⟨.kAlways, .kKeep, 0⟩,
        true, true, true, 16, 0⟩ : RenderEnv).geometry.prevent_overdraw
        = true →
      (appliedOptions ⟨true, false, false, ⟨true, 4⟩, ⟨.kAlways, .kKeep, 0⟩,
        true, true, true, 16, 0⟩).stencil_compare
        = CompareFunction.kEqual ∧
      (appliedOptions ⟨true, false, false, ⟨true, 4⟩, ⟨.kAlways, .kKeep, 0⟩,
        true, true, true, 16, 0⟩).stencil_operation
        = StencilOperation.kIncrementClamp ∧
      (Render ⟨true, false, false, ⟨true, 4⟩, ⟨.kAlways, .kKeep, 0⟩,
          true, true, true, 16, 0⟩
        ⟨"main", false, []⟩ [] [] 7).trace.countP
        RenderAction.isClipRestore = 1 ∧
      (Render ⟨true, false, false, ⟨true, 4⟩, ⟨.kAlways, .kKeep, 0⟩,
          true, true, true, 16, 0⟩
        ⟨"main", false, []⟩ [] [] 7).trace.countP
        RenderAction.isAddCommand = 1 ∧
      ∃ pre, (Render ⟨true, false, false, ⟨true, 4⟩, ⟨.kAlways, .kKeep, 0⟩,
          true, true, true, 16, 0⟩
        ⟨"main", false, []⟩ [] [] 7).trace =
        pre ++ [RenderAction.addCommand 7
          (appliedOptions ⟨true, false, false, ⟨true, 4⟩,
            ⟨.kAlways, .kKeep, 0⟩, true, true, true, 16, 0⟩),
          RenderAction.clipRestoreRender]) ∧
    ((⟨true, false, false, ⟨true, 4⟩, ⟨.kAlways, .kKeep, 0⟩,
        true, true, true, 16, 0⟩ : RenderEnv).geometry.prevent_overdraw
        = false →
      (Render ⟨true, false, false, ⟨true, 4⟩, ⟨.kAlways, .kKeep, 0⟩,
          true, true, true, 16, 0⟩
        ⟨"main", false, []⟩ [] [] 7).trace.countP
        RenderAction.isClipRestore = 0 ∧
      (appliedOptions ⟨true, false, false, ⟨true, 4⟩, ⟨.kAlways, .kKeep, 0⟩,
        true, true, true, 16, 0⟩).stencil_compare
        = (⟨.kAlways, .kKeep, 0⟩ : ContentContextOptions).stencil_compare ∧
      (appliedOptions ⟨true, false, false, ⟨true, 4⟩, ⟨.kAlways, .kKeep, 0⟩,
        true, true, true, 16, 0⟩).stencil_operation
        = (⟨.kAlways, .kKeep, 0⟩ : ContentContextOptions).stencil_operation ∧
      ∃ pre, (Render ⟨true, false, false, ⟨true, 4⟩, ⟨.kAlways, .kKeep, 0⟩,
          true, true, true, 16, 0⟩
        ⟨"main", false, []⟩ [] [] 7).trace =
        pre ++ [RenderAction.addCommand 7
          (appliedOptions ⟨true, false, false, ⟨true, 4⟩,
            ⟨.kAlways, .kKeep, 0⟩, true, true, true, 16, 0⟩)]) :=
  overdraw_stencil_override_and_cliprestore
    ⟨true, false, false, ⟨true, 4⟩, ⟨.kAlways, .kKeep, 0⟩,
      true, true, true, 16, 0⟩
    ⟨"main", false, []⟩ [] [] 7 rfl rfl rfl

/-- **C8.** A failure to apply the vertex stage's declared inputs is
non-fatal: it never changes the result of the render call, and whenever
the call reaches descriptor construction the failure is logged as a
validation diagnostic. -/
theorem vertex_layout_failure_nonfatal (env : RenderEnv)
    (stage : RuntimeStage) (blob : List Nat) (inputs : List TextureInput)
    (d : Nat) :
    (Render { env with vertexLayoutOk := false } stage blob inputs d).ok
      = (Render { env with vertexLayoutOk := true } stage blob inputs d).ok ∧
    (shaderOk env stage = true →
      RenderAction.logValidation vertexLayoutMsg ∈
        (Render { env with vertexLayoutOk := false }
          stage blob inputs d).trace) := by
  constructor
  · cases hf : env.functionFound <;> cases hd : stage.dirty <;>
      cases hr : env.registerResult <;> cases hre : env.refetchFound <;>
      simp [Render, hf, hd, hr, hre] <;>
      exact afterShader_ok_congr _ _ stage blob inputs d _ rfl rfl rfl rfl rfl
  · intro hsh
    have hsh' : shaderOk { env with vertexLayoutOk := false } stage = true := by
      simpa [shaderOk] using hsh
    obtain ⟨pre0, hprop, heq⟩ := render_shaderOk
      { env with vertexLayoutOk := false } stage blob inputs d hsh'
    rw [heq]
    exact List.mem_append.mpr (Or.inr
      (afterShader_vertLog { env with vertexLayoutOk := false }
        stage blob inputs d false rfl))

/-- Witness for C8: shader cached and clean, empty layout. -/
theorem vertex_layout_failure_nonfatal_witness :
    (Render { (⟨true, false, false, ⟨false, 4⟩, ⟨.kAlways, .kKeep, 0⟩,
        true, true, true, 16, 0⟩ : RenderEnv) with vertexLayoutOk := false }
      ⟨"main", false, []⟩ [] [] 0).ok
      = (Render { (⟨true, false, false, ⟨false, 4⟩, ⟨.kAlways, .kKeep, 0⟩,
          true, true, true, 16, 0⟩ : RenderEnv) with vertexLayoutOk := true }
        ⟨"main", false, []⟩ [] [] 0).ok ∧
    (shaderOk ⟨true, false, false, ⟨false, 4⟩, ⟨.kAlways, .kKeep, 0⟩,
        true, true, true, 16, 0⟩ ⟨"main", false, []⟩ = true →
      RenderAction.logValidation vertexLayoutMsg ∈
        (Render { (⟨true, false, false, ⟨false, 4⟩, ⟨.kAlways, .kKeep, 0⟩,
            true, true, true, 16, 0⟩ : RenderEnv) with
              vertexLayoutOk := false }
          ⟨"main", false, []⟩ [] [] 0).trace) :=
  vertex_layout_failure_nonfatal
    ⟨true, false, false, ⟨false, 4⟩, ⟨.kAlways, .kKeep, 0⟩,
      true, true, true, 16, 0⟩
    ⟨"main", false, []⟩ [] [] 0

/-- **C9.** For every render call with `prevent_overdraw` set that reaches
command submission, the call's result equals the clip-restore draw's
result, even though the primary command was already added to the pass. -/
theorem cliprestore_result_decides_render (env : RenderEnv)
    (stage : RuntimeStage) (blob : List Nat) (inputs : List TextureInput)
    (d : Nat) (hsh : shaderOk env stage = true)
    (hpipe : env.pipelineOk = true)
    (hbind : (bindLoop env.minUniformAlignment blob inputs stage.uniforms
      ⟨env.transientsPos, 0, 0⟩).2.2 = false)
    (hov : env.geometry.prevent_overdraw = true) :
    (Render env stage blob inputs d).ok = env.clipRestoreResult ∧
    RenderAction.addCommand d (appliedOptions env) ∈
      (Render env stage blob inputs d).trace := by
  obtain ⟨pre0, hprop, heq⟩ := render_shaderOk env stage blob inputs d hsh
  have hafter := afterShader_submit env stage blob inputs d false hpipe hbind
  rw [heq, hafter]
  constructor
  · simp [hov]
  · simp [hov, List.mem_append]

/-- Witness for C9: the clip-restore draw fails, so the render call fails
although a command was submitted. -/
theorem cliprestore_result_decides_render_witness :
    (Render ⟨true, false, false, ⟨true, 4⟩, ⟨.kAlways, .kKeep, 0⟩,
        true, true, false, 16, 0⟩ ⟨"main", false, []⟩ [] [] 3).ok
      = (⟨true, false, false, ⟨true, 4⟩, ⟨.kAlways, .kKeep, 0⟩,
          true, true, false, 16, 0⟩ : RenderEnv).clipRestoreResult ∧
    RenderAction.addCommand 3
      (appliedOptions ⟨true, false, false, ⟨true, 4⟩, ⟨.kAlways, .kKeep, 0⟩,
        true, true, false, 16, 0⟩) ∈
      (Render ⟨true, false, false, ⟨true, 4⟩, ⟨.kAlways, .kKeep, 0⟩,
        true, true, false, 16, 0⟩ ⟨"main", false, []⟩ [] [] 3).trace :=
  cliprestore_result_decides_render
    ⟨true, false, false, ⟨true, 4⟩, ⟨.kAlways, .kKeep, 0⟩,
      true, true, false, 16, 0⟩
    ⟨"main", false, []⟩ [] [] 3 rfl rfl rfl rfl

end RuntimeEffect
